import Mathlib

/-!
Shallow embedding of `src/app.py`, a small Flask web application that
uploads a photograph, detects faces (MTCNN + InceptionResnetV1), searches
a social-network API (VK) for candidate users, downloads each candidate's
photos and reports candidates whose photos contain a face within Euclidean
distance 0.6 of an uploaded face's embedding.

External collaborators (the ML models, the VK API, the network, the file
system) are modelled as oracle fields of a `World` structure; each app.py
function becomes a Lean function of the `World` that also returns the list
of externally visible events (`Ev`) it emits, in order.
-/

namespace App

/-- Raw byte content of an image file, as a list of bytes. -/
abbrev Bytes := List Nat

/-- An abstract decoded RGB image (the result of `Image.open(...).convert('RGB')`). -/
abbrev Img := Nat

/-- An abstract cropped face tensor (one element of the MTCNN output list). -/
abbrev Face := Nat

/-- A face embedding vector (the InceptionResnetV1 output).  The program's
float tensors are idealised as rational vectors. -/
abbrev Vec := List ℚ

/-- Squared Euclidean distance between two embedding vectors
(`(face_embedding - embedding).norm()` squared). -/
def distSq (a b : Vec) : ℚ :=
  (List.zipWith (fun x y => (x - y) ^ 2) a b).sum

/-- The fixed matching threshold `0.6` of app.py line 129. -/
def matchThreshold : ℚ := 6 / 10

/-- `distance < 0.6` of app.py line 129.  Both sides are nonnegative, so the
comparison of Euclidean norms is equivalent to the comparison of their
squares; the model compares squares to stay in rational arithmetic. -/
def isMatch (fe e : Vec) : Bool :=
  decide (distSq fe e < matchThreshold ^ 2)

/-- `.detach()` (app.py line 181) returns a tensor with the same values,
removed from the autograd graph: at value level it is the identity. -/
def detach (v : Vec) : Vec := v

/-- One item of the `database.getCities` response (`data["response"]["items"]`). -/
structure City where
  id : Int
deriving DecidableEq

/-- Shape of the JSON answered by `database.getCities` (after `.json()`):
either it has a `"response"` key with an item list, or it does not. -/
inductive CitiesResp where
  | response (items : List City)
  | noResponse
deriving DecidableEq

/-- One item of the `users.search` response: the fields app.py reads
(`id`, `first_name`, `last_name` and the optional photo size URLs). -/
structure VKUser where
  id : Int
  first_name : String
  last_name : String
  photo_200 : Option String
  photo_100 : Option String
  photo_50 : Option String
deriving DecidableEq

/-- Shape of the JSON answered by `users.search`: a `"response"` with items,
or anything else (app.py only logs in that case and keeps `user_results`
empty, whether or not an `"error"` key is present). -/
inductive UsersResp where
  | response (items : List VKUser)
  | noResponse
deriving DecidableEq

/-- One item of the `photos.getAll` response: app.py only reads
`item["sizes"][-1]["url"]`, so an item is modelled by its list of size URLs. -/
structure PhotoItem where
  sizes : List String
deriving DecidableEq

/-- Shape of the JSON answered by `photos.getAll`: a `"response"` with items,
an `"error"` with a numeric code, or neither. -/
inductive PhotosResp where
  | response (items : List PhotoItem)
  | apiError (code : Int)
  | malformed
deriving DecidableEq

/-- The query parameters app.py passes to `users.search` (lines 63-70):
`q` is `name if name else ''`, `city` is `city_id if city_id else ''`
(`none` encodes the empty-string filter), `count` is fixed at 10 and
`fields` at the three photo sizes.  `access_token` and `v` are credentials,
not filters, and are left out of the model. -/
structure UsersSearchParams where
  q : String
  city : Option Int
  count : Nat
  fields : String
deriving DecidableEq

/-- The candidate record built from one `users.search` item (lines 83-87). -/
structure UserRecord where
  user_id : Int
  name : String
  photo : String
deriving DecidableEq

/-- A match entry appended to `vk_results` (lines 130-134). -/
structure MatchEntry where
  name : String
  profile_url : String
  photo_url : String
deriving DecidableEq

/-- An error record returned by `get_photos_from_albums` in place of a match
list (lines 113, 141, 144): a dict with an `error` key. -/
structure ErrorRecord where
  profile_url : String
  name : String
  error : String
  photo_url : String
deriving DecidableEq

/-- The value a `get_photos_from_albums` call produces when it does not
raise: either an error record (a dict) or a list of match entries. -/
inductive TaskOutcome where
  | errorRecord (r : ErrorRecord)
  | matches (ms : List MatchEntry)
deriving DecidableEq

/-- The one exception `get_photos_from_albums` can raise past its own
handlers: `item["sizes"][-1]` on an empty `sizes` list (line 117 sits
outside the inner `try`).  `asyncio.gather(..., return_exceptions=True)`
turns it into a task result. -/
inductive Exn where
  | indexError
deriving DecidableEq

/-- One element of the final `vk_results` list (lines 205-209): either an
error dict or a match entry. -/
inductive ResultItem where
  | err (r : ErrorRecord)
  | entry (m : MatchEntry)
deriving DecidableEq

/-- Externally visible events, in program order: file save, MTCNN on the
uploaded image, the three VK API methods, and a photo download. -/
inductive Ev where
  | saveFile (path : String)
  | detectUpload
  | apiGetCities (q : String)
  | apiUsersSearch (p : UsersSearchParams)
  | apiPhotosGetAll (ownerId : Int)
  | download (url : String)
deriving DecidableEq

/-- The rendered page: `render_template('index.html', ...)` with no
arguments, with an `error` message (and optionally the uploaded filename),
or with the results list. -/
inductive Page where
  | plain
  | errorPage (msg : String) (filename : Option String)
  | results (filename : String) (vk : List ResultItem)
deriving DecidableEq

inductive Method where
  | get
  | post
deriving DecidableEq

/-- The parts of the incoming HTTP request that app.py reads. -/
structure RequestData where
  method : Method
  hasFile : Bool
  filename : String
  fileBytes : Bytes
  city : Option String
  name : Option String

/-- The external world: ML models, VK API, photo downloads, file system.
Fallible operations return `Except String _`; `Except.error e` models a
raised exception with text `e`, caught by the corresponding handler. -/
structure World where
  /-- `Image.open(...).convert('RGB')` on the given bytes; may raise. -/
  decodeRGB : Bytes → Except String Img
  /-- `mtcnn(img, return_prob=True)` first component; `none` models the
  `None` MTCNN returns when it detects no face. -/
  mtcnn : Img → Option (List Face)
  /-- `resnet(face.unsqueeze(0).to(device))`: the embedding of one face. -/
  resnet : Face → Vec
  /-- `session.get(photo_url)` + `.read()`: download a photo; may raise. -/
  download : String → Except String Bytes
  /-- `database.getCities` keyed by the queried city name (the other
  parameters, `country_id=1` and `count=1`, are fixed). -/
  getCities : String → Except String CitiesResp
  /-- `users.search` with the given parameters; may raise. -/
  usersSearch : UsersSearchParams → Except String UsersResp
  /-- `photos.getAll` keyed by `owner_id` (`count=100` is fixed). -/
  photosGetAll : Int → Except String PhotosResp
  /-- `file.save(filepath)`; may raise. -/
  save : String → Except String Unit
  /-- `werkzeug.utils.secure_filename`. -/
  secureFilename : String → String
  /-- `aiohttp.ClientSession()` construction; may raise. -/
  newSession : Except String Unit

/-- `f"https://vk.com/id{user_id}"` (lines 113, 132, 141, 144). -/
def profileUrl (userId : Int) : String :=
  "https://vk.com/id" ++ toString userId

/-- The default of `os.getenv('UPLOAD_FOLDER', 'static/uploads')` (line 23). -/
def uploadFolder : String := "static/uploads"

/-- The `for embedding in embeddings` loop of lines 127-135: append one
entry and `break` at the first embedding within the threshold. -/
def comparePhotoLoop (fe : Vec) (ent : MatchEntry) : List Vec → List MatchEntry
  | [] => []
  | e :: rest => if isMatch fe e then [ent] else comparePhotoLoop fe ent rest

/-- Lines 122-125 on a downloaded photo: decode to RGB, run MTCNN, embed
every cropped face with the resnet. -/
def candidateFacePipeline (w : World) (b : Bytes) : Except String (Option (List Vec)) :=
  match w.decodeRGB b with
  | .error e => .error e
  | .ok img =>
    match w.mtcnn img with
    | none => .ok none
    | some faces => .ok (some (faces.map (fun f => w.resnet f)))

/-- Lines 178-181 on the uploaded file: decode to RGB, run MTCNN, embed
every cropped face with the resnet and `.detach()` the result. -/
def uploadFacePipeline (w : World) (b : Bytes) : Except String (Option (List Vec)) :=
  match w.decodeRGB b with
  | .error e => .error e
  | .ok img =>
    match w.mtcnn img with
    | none => .ok none
    | some faces => .ok (some (faces.map (fun f => detach (w.resnet f))))

/-- The embeddings of the faces MTCNN detects in an image (`[]` when MTCNN
returns `None`). -/
def detectedEmbs (w : World) (img : Img) : List Vec :=
  match w.mtcnn img with
  | none => []
  | some faces => faces.map w.resnet

/-- Lines 119-137 for one photo URL: download, decode, detect, embed,
compare.  Returns the download event and the entries appended for this
photo; any exception in the block is caught (line 136) and yields no
entries, skipping just this photo. -/
def processPhoto (w : World) (fe : Vec) (userName : String) (userId : Int)
    (url : String) : List Ev × List MatchEntry :=
  ([Ev.download url],
    match w.download url with
    | .error _ => []
    | .ok bytes =>
      match candidateFacePipeline w bytes with
      | .error _ => []
      | .ok none => []
      | .ok (some embs) =>
        comparePhotoLoop fe ⟨userName, profileUrl userId, url⟩ embs)

/-- The `for item in data["response"]["items"]` loop of lines 116-137.
`item["sizes"][-1]["url"]` (line 117) sits outside the inner `try`, so an
empty `sizes` raises an uncaught `IndexError` that aborts the rest of the
loop (the downloads already made stay in the trace). -/
def itemsLoop (w : World) (fe : Vec) (userName : String) (userId : Int) :
    List PhotoItem → List Ev × Except Exn (List MatchEntry)
  | [] => ([], .ok [])
  | it :: rest =>
    match it.sizes.getLast? with
    | none => ([], .error Exn.indexError)
    | some url =>
      let p := processPhoto w fe userName userId url
      let r := itemsLoop w fe userName userId rest
      (p.1 ++ r.1, r.2.map (fun ms => p.2 ++ ms))

/-- `get_photos_from_albums` (lines 96-146): one `photos.getAll` call, then
the per-photo loop; a raised `photos.getAll` exception, an error code 30 or
a malformed answer each yield an error record instead. -/
def get_photos_from_albums (w : World) (userId : Int) (fe : Vec)
    (userName defaultPhotoUrl : String) : List Ev × Except Exn TaskOutcome :=
  match w.photosGetAll userId with
  | .error _ =>
    ([Ev.apiPhotosGetAll userId],
      .ok (.errorRecord ⟨profileUrl userId, userName,
        "Ошибка при получении фотографий", defaultPhotoUrl⟩))
  | .ok (.response items) =>
    let r := itemsLoop w fe userName userId items
    (Ev.apiPhotosGetAll userId :: r.1, r.2.map TaskOutcome.matches)
  | .ok (.apiError code) =>
    ([Ev.apiPhotosGetAll userId],
      .ok (.errorRecord ⟨profileUrl userId, userName,
        (if code = 30 then "Профиль закрыт" else "Не удалось получить фотографии"),
        defaultPhotoUrl⟩))
  | .ok .malformed =>
    ([Ev.apiPhotosGetAll userId],
      .ok (.errorRecord ⟨profileUrl userId, userName,
        "Не удалось получить фотографии", defaultPhotoUrl⟩))

/-- `get_city_id` (lines 34-54): the id of the first returned city when the
answer has a nonempty item list, `None` otherwise (including on a raised
exception, which is caught and logged). -/
def get_city_id (w : World) (cityName : String) : List Ev × Option Int :=
  ([Ev.apiGetCities cityName],
    match w.getCities cityName with
    | .error _ => none
    | .ok (.response []) => none
    | .ok (.response (c :: _)) => some c.id
    | .ok .noResponse => none)

/-- Lines 58-60: `city_id = await get_city_id(...)` only when `city_name`
is truthy (a nonempty string). -/
def resolvedCityId (w : World) : Option String → List Ev × Option Int
  | some cn => if cn = "" then ([], none) else get_city_id w cn
  | none => ([], none)

/-- The `params` dict of lines 63-70.  `q` is `name if name else ''` and
`city` is `city_id if city_id else ''` under Python truthiness (both `None`
and `0` are falsy; `none` encodes `''`). -/
def issuedSearchParams (cityId : Option Int) (name : Option String) : UsersSearchParams :=
  ⟨(match name with | some s => s | none => ""),
   (match cityId with | some n => if n = 0 then none else some n | none => none),
   10, "photo_50,photo_100,photo_200"⟩

/-- The parameters `search_users_by_params` sends to `users.search` for a
given request. -/
def issuedParams (w : World) (cityName name : Option String) : UsersSearchParams :=
  issuedSearchParams (resolvedCityId w cityName).2 name

/-- Lines 83-87: the candidate record for one `users.search` item, with the
preferred photo `photo_200`, else `photo_100`, else `photo_50`, else `''`. -/
def userRecordOfItem (u : VKUser) : UserRecord :=
  ⟨u.id, u.first_name ++ " " ++ u.last_name,
   u.photo_200.getD (u.photo_100.getD (u.photo_50.getD ""))⟩

/-- Lines 72-93 after the request: a raised exception gives `[]`, a
`"response"` maps the items to records, anything else only logs and leaves
`user_results` empty. -/
def usersRespToRecords : Except String UsersResp → List UserRecord
  | .error _ => []
  | .ok (.response items) => items.map userRecordOfItem
  | .ok .noResponse => []

/-- `search_users_by_params` (lines 57-93): resolve the city, issue
`users.search`, map the items to candidate records. -/
def search_users_by_params (w : World) (cityName name : Option String) :
    List Ev × List UserRecord :=
  let rc := resolvedCityId w cityName
  let p := issuedSearchParams rc.2 name
  (rc.1 ++ [Ev.apiUsersSearch p], usersRespToRecords (w.usersSearch p))

/-- The task list of lines 198-202: one `get_photos_from_albums` task per
`(user, face_encoding)` pair, users outermost. -/
def spawnedTasks (users : List UserRecord) (faceEncs : List Vec) :
    List (UserRecord × Vec) :=
  users.flatMap (fun u => faceEncs.map (fun fe => (u, fe)))

/-- Lines 205-211: error dicts are appended, match lists extended, task
exceptions only logged. -/
def aggregate : List (Except Exn TaskOutcome) → List ResultItem
  | [] => []
  | .ok (.errorRecord r) :: rest => .err r :: aggregate rest
  | .ok (.matches ms) :: rest => ms.map ResultItem.entry ++ aggregate rest
  | .error _ :: rest => aggregate rest

/-- `os.path.join(app.config['UPLOAD_FOLDER'], secure_filename(file.filename))`. -/
def filepathOf (w : World) (req : RequestData) : String :=
  uploadFolder ++ "/" ++ w.secureFilename req.filename

/-- Lines 190-219: open the session, search users (an empty result renders
an error page), gather one task per `(user, face_encoding)` pair, aggregate
the results, render.  `fname` is the secured filename passed back to the
template. -/
def searchStage (w : World) (req : RequestData) (fname : String)
    (face_encodings : List Vec) : List Ev × Page :=
  match w.newSession with
  | .error e => ([], .errorPage ("Ошибка при поиске профилей: " ++ e) (some fname))
  | .ok _ =>
    let sr := search_users_by_params w req.city req.name
    if sr.2 = [] then
      (sr.1, .errorPage "Не найдено пользователей для данных параметров" (some fname))
    else
      let runs := (spawnedTasks sr.2 face_encodings).map
        (fun t => get_photos_from_albums w t.1.user_id t.2 t.1.name t.1.photo)
      let vk := aggregate (runs.map Prod.snd)
      if vk = [] then
        (sr.1 ++ (runs.map Prod.fst).flatten,
          .errorPage "Совпадающих профилей не найдено" (some fname))
      else
        (sr.1 ++ (runs.map Prod.fst).flatten, .results fname vk)

/-- Lines 176-188: load the saved image and detect faces.  MTCNN runs (the
`detectUpload` event) exactly when decoding succeeded; `None` renders the
no-faces error page, a raised exception renders a page embedding the
exception text. -/
def detectStage (w : World) (req : RequestData) (fname : String) : List Ev × Page :=
  match uploadFacePipeline w req.fileBytes with
  | .error e =>
    ([], .errorPage ("Ошибка при загрузке изображения: " ++ e) (some fname))
  | .ok none => ([Ev.detectUpload], .errorPage "Лица не найдены" (some fname))
  | .ok (some face_encodings) =>
    let s := searchStage w req fname face_encodings
    (Ev.detectUpload :: s.1, s.2)

/-- Lines 163-171: secure the filename and save the file; a raised save
exception renders an error page and stops the pipeline. -/
def saveStage (w : World) (req : RequestData) : List Ev × Page :=
  match w.save (filepathOf w req) with
  | .error _ =>
    ([Ev.saveFile (filepathOf w req)], .errorPage "Ошибка при сохранении файла" none)
  | .ok _ =>
    let d := detectStage w req (w.secureFilename req.filename)
    (Ev.saveFile (filepathOf w req) :: d.1, d.2)

/-- The `index` handler (lines 149-221).  A GET renders the plain page; a
POST without a `file` part or with an empty filename renders an error page
at once (`if file:` is werkzeug `FileStorage` truthiness, i.e. a nonempty
filename, already guaranteed by the guard before it). -/
def index (w : World) (req : RequestData) : List Ev × Page :=
  match req.method with
  | .get => ([], .plain)
  | .post =>
    if req.hasFile then
      if req.filename = "" then ([], .errorPage "Файл не выбран" none)
      else saveStage w req
    else ([], .errorPage "Нет файла в запросе" none)

/-- Events of the upload/detection stage (before any remote call). -/
def isUploadStageEv : Ev → Bool
  | .saveFile _ => true
  | .detectUpload => true
  | _ => false

/-- Events of the user-search stage. -/
def isSearchStageEv : Ev → Bool
  | .apiGetCities _ => true
  | .apiUsersSearch _ => true
  | _ => false

/-- Events of the photo fetch-and-compare stage. -/
def isPhotoStageEv : Ev → Bool
  | .apiPhotosGetAll _ => true
  | .download _ => true
  | _ => false

/-- Any remote call: a VK API method or a photo download. -/
def isApiEv (e : Ev) : Bool := isSearchStageEv e || isPhotoStageEv e

/-- The `users.search` call itself. -/
def isUsersSearchEv : Ev → Bool
  | .apiUsersSearch _ => true
  | _ => false

/-- The `photos.getAll` call itself. -/
def isPhotosGetAllEv : Ev → Bool
  | .apiPhotosGetAll _ => true
  | _ => false

/-- The six constant error messages `index` can render: every other
rendered error message embeds exception text. -/
def genericMessages : List String :=
  ["Нет файла в запросе", "Файл не выбран", "Ошибка при сохранении файла",
   "Лица не найдены", "Не найдено пользователей для данных параметров",
   "Совпадающих профилей не найдено"]

/-! ## Helper lemmas -/

theorem comparePhotoLoop_eq_single_iff (fe : Vec) (ent : MatchEntry) (l : List Vec) :
    comparePhotoLoop fe ent l = [ent] ↔ ∃ e ∈ l, isMatch fe e = true := by
  induction l with
  | nil => simp [comparePhotoLoop]
  | cons a t ih =>
    by_cases h : isMatch fe a
    · simp [comparePhotoLoop, h]
    · simp [comparePhotoLoop, h, ih]

theorem comparePhotoLoop_eq_nil_iff (fe : Vec) (ent : MatchEntry) (l : List Vec) :
    comparePhotoLoop fe ent l = [] ↔ ∀ e ∈ l, isMatch fe e = false := by
  induction l with
  | nil => simp [comparePhotoLoop]
  | cons a t ih =>
    by_cases h : isMatch fe a
    · simp [comparePhotoLoop, h]
    · simp [comparePhotoLoop, h, ih]

theorem comparePhotoLoop_length_le_one (fe : Vec) (ent : MatchEntry) (l : List Vec) :
    (comparePhotoLoop fe ent l).length ≤ 1 := by
  induction l with
  | nil => simp [comparePhotoLoop]
  | cons a t ih =>
    by_cases h : isMatch fe a
    · simp [comparePhotoLoop, h]
    · simp [comparePhotoLoop, h, ih]

/-- A concrete world used to instantiate hypotheses in witnesses: every
oracle succeeds, one face per image, all embeddings at the origin. -/
def wOk : World :=
  ⟨fun _ => .ok 0, fun _ => some [0], fun _ => [(0 : ℚ)], fun _ => .ok [],
   fun _ => .ok .noResponse, fun _ => .ok .noResponse, fun _ => .ok .malformed,
   fun _ => .ok (), fun s => s, .ok ()⟩

/-! ## Claims -/

/-- C8: the face-embedding pipeline applied to a downloaded candidate photo
(lines 122-125) is the same as the one applied to the uploaded photograph
(lines 178-181): both decode to RGB, run MTCNN and embed every cropped face
with the resnet (`.detach()` is value-level identity), so on identical
image bytes the two call sites produce the same list of embeddings. -/
theorem c8_same_pipeline_both_call_sites (w : World) (b : Bytes) :
    uploadFacePipeline w b = candidateFacePipeline w b := by
  unfold uploadFacePipeline candidateFacePipeline detach
  cases w.decodeRGB b with
  | error e => rfl
  | ok img => cases w.mtcnn img <;> simp

/-- C9: for each candidate photo, at most one match entry is appended, even
when several detected faces fall within the distance threshold, and the
per-embedding comparison loop (lines 127-135) stops at the first matching
face: a head match settles the photo regardless of the remaining
embeddings. -/
theorem c9_at_most_one_entry_per_photo :
    (∀ (w : World) (fe : Vec) (un : String) (uid : Int) (url : String),
      ((processPhoto w fe un uid url).2).length ≤ 1) ∧
    (∀ (fe : Vec) (ent : MatchEntry) (m : Vec) (rest : List Vec),
      isMatch fe m = true → comparePhotoLoop fe ent (m :: rest) = [ent]) := by
  constructor
  · intro w fe un uid url
    simp only [processPhoto]
    cases hdl : w.download url with
    | error e => simp
    | ok bytes =>
      cases hcp : candidateFacePipeline w bytes with
      | error e => simp [hcp]
      | ok o =>
        cases o with
        | none => simp [hcp]
        | some embs => simpa [hcp] using comparePhotoLoop_length_le_one fe _ embs
  · intro fe ent m rest h
    simp [comparePhotoLoop, h]

/-- Witness for C9 at a concrete input: with two embeddings both within the
threshold, the loop appends exactly the one entry. -/
theorem c9_witness :
    comparePhotoLoop [(0 : ℚ)] ⟨"U", "p", "u"⟩ [[(0 : ℚ)], [(0 : ℚ)]] = [⟨"U", "p", "u"⟩] :=
  c9_at_most_one_entry_per_photo.2 [(0 : ℚ)] ⟨"U", "p", "u"⟩ [(0 : ℚ)] [[(0 : ℚ)]]
    (by simp [isMatch, distSq, matchThreshold])

/-- C1: for a candidate photo whose download and decode succeed, the match
entry `(name, profile URL, photo URL)` is appended if and only if some
detected face's embedding lies within Euclidean distance 0.6 of the
uploaded face's embedding; a photo with no detected faces, or whose faces
all lie at distance at least 0.6, contributes no entry. -/
theorem c1_match_entry_iff_close_face (w : World) (fe : Vec) (un : String)
    (uid : Int) (url : String) (bytes : Bytes) (img : Img)
    (hdl : w.download url = .ok bytes) (hdec : w.decodeRGB bytes = .ok img) :
    ((processPhoto w fe un uid url).2 = [⟨un, profileUrl uid, url⟩] ↔
      ∃ e ∈ detectedEmbs w img, isMatch fe e = true) ∧
    ((processPhoto w fe un uid url).2 = [] ↔
      ∀ e ∈ detectedEmbs w img, isMatch fe e = false) := by
  simp only [processPhoto, hdl, candidateFacePipeline, hdec, detectedEmbs]
  cases w.mtcnn img with
  | none => simp
  | some faces =>
    constructor
    · simpa using
        comparePhotoLoop_eq_single_iff fe ⟨un, profileUrl uid, url⟩ (faces.map w.resnet)
    · simpa using
        comparePhotoLoop_eq_nil_iff fe ⟨un, profileUrl uid, url⟩ (faces.map w.resnet)

/-- Witness for C1 at a concrete input: in `wOk` the single detected face
sits at distance 0 from the uploaded embedding, so the entry is appended. -/
theorem c1_witness :
    (processPhoto wOk [(0 : ℚ)] "U" 1 "u").2 = [⟨"U", profileUrl 1, "u"⟩] :=
  (c1_match_entry_iff_close_face wOk [(0 : ℚ)] "U" 1 "u" [] 0 rfl rfl).1.mpr
    ⟨[(0 : ℚ)], by simp [detectedEmbs, wOk], by simp [isMatch, distSq, matchThreshold]⟩

/-- A concrete world in which every external call raises, used to
instantiate hypotheses about caught exceptions. -/
def wFail : World :=
  ⟨fun _ => .error "e", fun _ => none, fun _ => [], fun _ => .error "e",
   fun _ => .error "e", fun _ => .error "e", fun _ => .error "e",
   fun _ => .error "e", fun s => s, .error "e"⟩

/-- C10: when a city name is supplied (a nonempty string, Python
truthiness) but the lookup fails — the `database.getCities` call raises, or
answers with no items, or with no `"response"` — `search_users_by_params`
still issues `users.search`, with the empty city filter: the failed
resolution silently widens the search instead of failing or returning no
users. -/
theorem c10_failed_city_lookup_widens_search (w : World) (cn : String)
    (nm : Option String) (hcn : cn ≠ "")
    (hfail : (∃ e, w.getCities cn = .error e) ∨
      w.getCities cn = .ok (.response []) ∨ w.getCities cn = .ok .noResponse) :
    (issuedParams w (some cn) nm).city = none ∧
    Ev.apiUsersSearch (issuedParams w (some cn) nm) ∈
      (search_users_by_params w (some cn) nm).1 ∧
    (search_users_by_params w (some cn) nm).2 =
      usersRespToRecords (w.usersSearch (issuedParams w (some cn) nm)) := by
  have hres : (resolvedCityId w (some cn)).2 = none := by
    rcases hfail with ⟨e, he⟩ | he | he <;>
      simp [resolvedCityId, hcn, get_city_id, he]
  refine ⟨?_, ?_, ?_⟩
  · simp [issuedParams, hres, issuedSearchParams]
  · simp [search_users_by_params, issuedParams]
  · simp [search_users_by_params, issuedParams]

/-- Witness for C10 at a concrete input: in `wOk` the city lookup answers
without a `"response"`, yet the search is issued with an empty city filter. -/
theorem c10_witness :
    (issuedParams wOk (some "Тверь") none).city = none ∧
    Ev.apiUsersSearch (issuedParams wOk (some "Тверь") none) ∈
      (search_users_by_params wOk (some "Тверь") none).1 ∧
    (search_users_by_params wOk (some "Тверь") none).2 =
      usersRespToRecords (wOk.usersSearch (issuedParams wOk (some "Тверь") none)) :=
  c10_failed_city_lookup_widens_search wOk "Тверь" none (by decide)
    (Or.inr (Or.inr rfl))

/-- C6: candidate profiles come from the three VK REST methods with
name/city as optional filters: `database.getCities` resolves a city name to
the id of the first returned city; `users.search` is issued with the given
name (or the empty string) and the resolved city id (or empty) as filters,
with `count` 10 and the three photo-size fields; `photos.getAll` is called
per user; and each candidate record carries the user id, the full name and
the preferred photo URL (`photo_200`, else `photo_100`, else `photo_50`,
else `''`). -/
theorem c6_three_api_methods_and_record_fields :
    (∀ (w : World) (cn : String) (c : City) (cs : List City),
      w.getCities cn = .ok (.response (c :: cs)) → (get_city_id w cn).2 = some c.id) ∧
    (∀ (w : World) (cityName nm : Option String),
      Ev.apiUsersSearch (issuedParams w cityName nm) ∈
        (search_users_by_params w cityName nm).1 ∧
      (issuedParams w cityName nm).q = (match nm with | some s => s | none => "") ∧
      (issuedParams w cityName nm).count = 10 ∧
      (issuedParams w cityName nm).fields = "photo_50,photo_100,photo_200" ∧
      ((resolvedCityId w cityName).2 = none → (issuedParams w cityName nm).city = none) ∧
      (∀ cid, (resolvedCityId w cityName).2 = some cid → cid ≠ 0 →
        (issuedParams w cityName nm).city = some cid)) ∧
    (∀ (w : World) (cityName nm : Option String) (items : List VKUser),
      w.usersSearch (issuedParams w cityName nm) = .ok (.response items) →
      (search_users_by_params w cityName nm).2 = items.map userRecordOfItem) ∧
    (∀ u : VKUser, userRecordOfItem u =
      ⟨u.id, u.first_name ++ " " ++ u.last_name,
        u.photo_200.getD (u.photo_100.getD (u.photo_50.getD ""))⟩) ∧
    (∀ (w : World) (uid : Int) (fe : Vec) (un dp : String),
      Ev.apiPhotosGetAll uid ∈ (get_photos_from_albums w uid fe un dp).1) := by
  refine ⟨?_, ?_, ?_, ?_, ?_⟩
  · intro w cn c cs h
    simp [get_city_id, h]
  · intro w cityName nm
    refine ⟨?_, rfl, rfl, rfl, ?_, ?_⟩
    · simp [search_users_by_params, issuedParams]
    · intro h
      simp [issuedParams, h, issuedSearchParams]
    · intro cid h hne
      simp [issuedParams, h, issuedSearchParams, hne]
  · intro w cityName nm items h
    simp only [search_users_by_params]
    rw [show issuedSearchParams (resolvedCityId w cityName).2 nm =
      issuedParams w cityName nm from rfl, h]
    rfl
  · intro u
    rfl
  · intro w uid fe un dp
    cases h : w.photosGetAll uid with
    | error e => simp [get_photos_from_albums, h]
    | ok r =>
      cases r <;> simp [get_photos_from_albums, h]

/-- Witness for C6 at concrete inputs: a one-city answer resolves to that
city's id, and a concrete `users.search` answer maps to candidate records. -/
theorem c6_witness :
    (get_city_id (⟨fun _ => .ok 0, fun _ => some [0], fun _ => [(0 : ℚ)],
        fun _ => .ok [], fun _ => .ok (.response [⟨99⟩]),
        fun _ => .ok (.response [⟨7, "Иван", "Петров", none, none, some "p50"⟩]),
        fun _ => .ok .malformed, fun _ => .ok (), fun s => s, .ok ()⟩ : World)
      "Тверь").2 = some 99 ∧
    (search_users_by_params (⟨fun _ => .ok 0, fun _ => some [0], fun _ => [(0 : ℚ)],
        fun _ => .ok [], fun _ => .ok (.response [⟨99⟩]),
        fun _ => .ok (.response [⟨7, "Иван", "Петров", none, none, some "p50"⟩]),
        fun _ => .ok .malformed, fun _ => .ok (), fun s => s, .ok ()⟩ : World)
      none none).2 = [⟨7, "Иван Петров", "p50"⟩] := by
  constructor
  · exact c6_three_api_methods_and_record_fields.1 _ "Тверь" ⟨99⟩ [] rfl
  · rw [c6_three_api_methods_and_record_fields.2.2.1 _ none none
      [⟨7, "Иван", "Петров", none, none, some "p50"⟩] rfl]
    rfl

/-- C2: exceptions during per-call operations are caught and processing
continues without retrying: a raised `database.getCities` makes
`get_city_id` answer `None`; a raised `users.search` makes
`search_users_by_params` answer `[]`; a raised `photos.getAll` makes
`get_photos_from_albums` answer an error record for that user only; a
failed per-photo download or decode skips only that photo, the remaining
photos of the same task being processed as if it were absent; and an
exception carried by one gathered task is dropped by the aggregation
without aborting the other tasks' results. -/
theorem c2_exceptions_caught_and_processing_continues :
    (∀ (w : World) (cn : String) (e : String),
      w.getCities cn = .error e → (get_city_id w cn).2 = none) ∧
    (∀ (w : World) (cityName nm : Option String) (e : String),
      w.usersSearch (issuedParams w cityName nm) = .error e →
      (search_users_by_params w cityName nm).2 = []) ∧
    (∀ (w : World) (uid : Int) (fe : Vec) (un dp : String) (e : String),
      w.photosGetAll uid = .error e →
      (get_photos_from_albums w uid fe un dp).2 =
        .ok (.errorRecord ⟨profileUrl uid, un,
          "Ошибка при получении фотографий", dp⟩)) ∧
    (∀ (w : World) (fe : Vec) (un : String) (uid : Int) (url : String),
      ((∃ e, w.download url = .error e) ∨
        (∃ b e, w.download url = .ok b ∧ w.decodeRGB b = .error e)) →
      (processPhoto w fe un uid url).2 = [] ∧
      (∀ (pre post : List PhotoItem) (it : PhotoItem),
        it.sizes.getLast? = some url →
        (itemsLoop w fe un uid (pre ++ it :: post)).2 =
          (itemsLoop w fe un uid (pre ++ post)).2)) ∧
    (∀ (rs₁ rs₂ : List (Except Exn TaskOutcome)) (ex : Exn),
      aggregate (rs₁ ++ .error ex :: rs₂) = aggregate (rs₁ ++ rs₂)) := by
  refine ⟨?_, ?_, ?_, ?_, ?_⟩
  · intro w cn e h
    simp [get_city_id, h]
  · intro w cityName nm e h
    simp only [search_users_by_params]
    rw [show issuedSearchParams (resolvedCityId w cityName).2 nm =
      issuedParams w cityName nm from rfl, h]
    rfl
  · intro w uid fe un dp e h
    simp [get_photos_from_albums, h]
  · intro w fe un uid url hfail
    have hskip : (processPhoto w fe un uid url).2 = [] := by
      rcases hfail with ⟨e, he⟩ | ⟨b, e, hb, he⟩
      · simp [processPhoto, he]
      · simp [processPhoto, hb, candidateFacePipeline, he]
    refine ⟨hskip, ?_⟩
    intro pre post it hlast
    induction pre with
    | nil =>
      simp only [List.nil_append, itemsLoop, hlast, hskip]
      cases (itemsLoop w fe un uid post).2 <;> rfl
    | cons a t ih =>
      simp only [List.cons_append, itemsLoop]
      cases a.sizes.getLast? with
      | none => rfl
      | some u => simp [ih]
  · intro rs₁ rs₂ ex
    induction rs₁ with
    | nil => simp [aggregate]
    | cons r rs ih =>
      cases r with
      | error ex2 => simp [aggregate, ih]
      | ok o => cases o <;> simp [aggregate, ih]

/-- Witness for C2 at concrete inputs: in `wFail` every call raises, the
fallbacks are produced, and an exception task is dropped by aggregation. -/
theorem c2_witness :
    (get_city_id wFail "Москва").2 = none ∧
    (search_users_by_params wFail (some "Москва") (some "Иван")).2 = [] ∧
    (get_photos_from_albums wFail 1 [] "U" "d").2 =
      .ok (.errorRecord ⟨profileUrl 1, "U", "Ошибка при получении фотографий", "d"⟩) ∧
    (processPhoto wFail [] "U" 1 "u").2 = [] ∧
    aggregate [.error Exn.indexError] = aggregate [] :=
  ⟨c2_exceptions_caught_and_processing_continues.1 wFail "Москва" "e" rfl,
   c2_exceptions_caught_and_processing_continues.2.1 wFail (some "Москва")
     (some "Иван") "e" rfl,
   c2_exceptions_caught_and_processing_continues.2.2.1 wFail 1 [] "U" "d" "e" rfl,
   (c2_exceptions_caught_and_processing_continues.2.2.2.1 wFail [] "U" 1 "u"
     (Or.inl ⟨"e", rfl⟩)).1,
   c2_exceptions_caught_and_processing_continues.2.2.2.2 [] [] Exn.indexError⟩

theorem getLast?_of_ne_nil (l : List String) (h : l ≠ []) :
    l.getLast? = some (l.getLastD "") := by
  cases l with
  | nil => simp at h
  | cons a t => simp [List.getLastD_eq_getLast?, List.getLast?_cons]

/-- When every item has a nonempty `sizes` list, the photo loop downloads
every item's last-size URL in order, and its value is the concatenation of
the per-photo results. -/
theorem itemsLoop_all_sizes_ne_nil (w : World) (fe : Vec) (un : String) (uid : Int)
    (items : List PhotoItem) (h : ∀ it ∈ items, it.sizes ≠ []) :
    (itemsLoop w fe un uid items).1 =
      items.map (fun it => Ev.download (it.sizes.getLastD "")) ∧
    (itemsLoop w fe un uid items).2 =
      .ok ((items.map
        (fun it => (processPhoto w fe un uid (it.sizes.getLastD "")).2)).flatten) := by
  induction items with
  | nil => exact ⟨rfl, rfl⟩
  | cons it rest ih =>
    have hlast : it.sizes.getLast? = some (it.sizes.getLastD "") :=
      getLast?_of_ne_nil _ (h it (by simp))
    have ihr := ih (fun x hx => h x (by simp [hx]))
    simp only [itemsLoop, hlast, processPhoto, List.map_cons, List.flatten_cons]
    rw [ihr.1, ihr.2]
    exact ⟨rfl, rfl⟩

/-- C7: every candidate profile returned by the user search gets a
fetch-and-compare task (one per `(user, face)` pair), and within a task
whose `photos.getAll` succeeds, every returned photo's URL is downloaded
and the task's value is the concatenation of the per-photo
embedding-comparison results. -/
theorem c7_every_photo_downloaded_and_compared :
    (∀ (users : List UserRecord) (fes : List Vec) (u : UserRecord) (fe : Vec),
      u ∈ users → fe ∈ fes → (u, fe) ∈ spawnedTasks users fes) ∧
    (∀ (w : World) (uid : Int) (fe : Vec) (un dp : String) (items : List PhotoItem),
      w.photosGetAll uid = .ok (.response items) →
      (∀ it ∈ items, it.sizes ≠ []) →
      (∀ it ∈ items, Ev.download (it.sizes.getLastD "") ∈
        (get_photos_from_albums w uid fe un dp).1) ∧
      (get_photos_from_albums w uid fe un dp).2 =
        .ok (.matches ((items.map
          (fun it => (processPhoto w fe un uid (it.sizes.getLastD "")).2)).flatten))) := by
  constructor
  · intro users fes u fe hu hfe
    simp only [spawnedTasks, List.mem_flatMap, List.mem_map]
    exact ⟨u, hu, fe, hfe, rfl⟩
  · intro w uid fe un dp items hresp hsz
    have hl := itemsLoop_all_sizes_ne_nil w fe un uid items hsz
    simp only [get_photos_from_albums, hresp]
    constructor
    · intro it hit
      rw [hl.1]
      exact List.mem_cons_of_mem _ (List.mem_map.mpr ⟨it, hit, rfl⟩)
    · rw [hl.2]
      rfl

/-- A concrete world whose `photos.getAll` answers one photo with one size
URL and whose MTCNN finds no face in the downloaded photo. -/
def wPhoto : World :=
  ⟨fun _ => .ok 0, fun _ => none, fun _ => [], fun _ => .ok [],
   fun _ => .ok .noResponse, fun _ => .ok .noResponse,
   fun _ => .ok (.response [⟨["u1"]⟩]), fun _ => .ok (), fun s => s, .ok ()⟩

/-- Witness for C7 at concrete inputs: the single `(user, face)` pair is
spawned, the single photo's URL is downloaded, and the task's value is the
(here empty) concatenation of per-photo results. -/
theorem c7_witness :
    ((⟨1, "n", "p"⟩ : UserRecord), ([] : Vec)) ∈
      spawnedTasks [⟨1, "n", "p"⟩] [[]] ∧
    Ev.download "u1" ∈ (get_photos_from_albums wPhoto 1 [] "U" "d").1 ∧
    (get_photos_from_albums wPhoto 1 [] "U" "d").2 = .ok (.matches []) := by
  have h2 := c7_every_photo_downloaded_and_compared.2 wPhoto 1 [] "U" "d"
    [⟨["u1"]⟩] rfl (by simp)
  refine ⟨?_, ?_, ?_⟩
  · exact c7_every_photo_downloaded_and_compared.1 [⟨1, "n", "p"⟩] [[]] _ _
      (by simp) (by simp)
  · exact h2.1 ⟨["u1"]⟩ (by simp)
  · rw [h2.2]
    rfl

/-- A concrete world whose `users.search` answers two candidate users and
whose MTCNN detects two faces in the uploaded photograph. -/
def wTwo : World :=
  ⟨fun _ => .ok 0, fun _ => some [0, 1], fun _ => [], fun _ => .error "e",
   fun _ => .ok .noResponse,
   fun _ => .ok (.response [⟨1, "a", "b", none, none, none⟩,
     ⟨2, "c", "d", none, none, none⟩]),
   fun _ => .ok (.response []), fun _ => .ok (), fun s => s, .ok ()⟩

/-- A POST request carrying a file named `f` with empty byte content. -/
def reqPost : RequestData := ⟨.post, true, "f", [], none, none⟩

/-- Counterexample to C3 as stated: with two candidate users and two faces
detected in the upload, the handler gathers four `get_photos_from_albums`
tasks (four `photos.getAll` calls in the trace), not two (the number of
candidate users found). -/
theorem c3_counterexample :
    ¬ ((index wTwo reqPost).1.countP isPhotosGetAllEv =
      (search_users_by_params wTwo reqPost.city reqPost.name).2.length) := by
  decide

/-- C3 (amended): the fan-out spawns one independent fetch-and-compare task
per `(candidate user, detected face)` pair, so the number of
`get_photos_from_albums` tasks gathered equals the number of candidate
users found times the number of face embeddings from the uploaded photo. -/
theorem c3_one_task_per_user_face_pair (users : List UserRecord) (fes : List Vec) :
    (spawnedTasks users fes).length = users.length * fes.length := by
  induction users with
  | nil => simp [spawnedTasks]
  | cons a t ih =>
    simp only [spawnedTasks, List.flatMap_cons, List.length_append,
      List.length_map, List.length_cons] at *
    rw [ih]
    ring

/-- A concrete world whose image decode raises an exception with text
`boom`. -/
def wBoom : World :=
  ⟨fun _ => .error "boom", fun _ => none, fun _ => [], fun _ => .ok [],
   fun _ => .ok .noResponse, fun _ => .ok .noResponse, fun _ => .ok .malformed,
   fun _ => .ok (), fun s => s, .ok ()⟩

/-- Counterexample to C4 as stated: when loading the uploaded image raises
an exception with text `boom`, the rendered page message embeds that
exception text (line 188) and is not one of the fixed generic messages. -/
theorem c4_counterexample :
    (index wBoom reqPost).2 =
      .errorPage "Ошибка при загрузке изображения: boom" (some "f") ∧
    "Ошибка при загрузке изображения: boom" ∉ genericMessages := by
  constructor
  · rfl
  · decide

/-- C4 (amended): every failure that reaches the rendered page is one of
the six fixed generic messages, except the image-load handler (line 188)
and the profile-search handler (line 217), which append the exception text
to a fixed prefix. -/
theorem c4_error_messages (w : World) (req : RequestData) (msg : String)
    (fn : Option String) (h : (index w req).2 = .errorPage msg fn) :
    msg ∈ genericMessages ∨
    (∃ e, msg = "Ошибка при загрузке изображения: " ++ e) ∨
    (∃ e, msg = "Ошибка при поиске профилей: " ++ e) := by
  obtain ⟨m, hasF, fname, fb, ct, nm⟩ := req
  cases m with
  | get => simp [index] at h
  | post =>
    cases hasF with
    | false =>
      simp only [index, Bool.false_eq_true, if_false] at h
      left
      simp only [Page.errorPage.injEq] at h
      rw [← h.1]
      simp [genericMessages]
    | true =>
      simp only [index, if_true] at h
      by_cases hfn : fname = ""
      · rw [if_pos hfn] at h
        left
        simp only [Page.errorPage.injEq] at h
        rw [← h.1]
        simp [genericMessages]
      · rw [if_neg hfn] at h
        cases hs : w.save (filepathOf w ⟨.post, true, fname, fb, ct, nm⟩) with
        | error e =>
          simp only [saveStage, hs] at h
          left
          simp only [Page.errorPage.injEq] at h
          rw [← h.1]
          simp [genericMessages]
        | ok u =>
          simp only [saveStage, hs] at h
          cases hup : uploadFacePipeline w fb with
          | error e =>
            simp only [detectStage, hup] at h
            right; left
            simp only [Page.errorPage.injEq] at h
            exact ⟨e, h.1.symm⟩
          | ok o =>
            cases o with
            | none =>
              simp only [detectStage, hup] at h
              left
              simp only [Page.errorPage.injEq] at h
              rw [← h.1]
              simp [genericMessages]
            | some fes =>
              simp only [detectStage, hup] at h
              cases hns : w.newSession with
              | error e =>
                simp only [searchStage, hns] at h
                right; right
                simp only [Page.errorPage.injEq] at h
                exact ⟨e, h.1.symm⟩
              | ok u2 =>
                simp only [searchStage, hns] at h
                by_cases hsr :
                  (search_users_by_params w ct nm).2 = []
                · rw [if_pos hsr] at h
                  left
                  simp only [Page.errorPage.injEq] at h
                  rw [← h.1]
                  simp [genericMessages]
                · rw [if_neg hsr] at h
                  by_cases hvk : aggregate
                    (((spawnedTasks (search_users_by_params w ct nm).2 fes).map
                      (fun t => get_photos_from_albums w t.1.user_id t.2
                        t.1.name t.1.photo)).map Prod.snd) = []
                  · rw [if_pos hvk] at h
                    left
                    simp only [Page.errorPage.injEq] at h
                    rw [← h.1]
                    simp [genericMessages]
                  · rw [if_neg hvk] at h
                    simp at h

/-- Witness for C4 (amended) at a concrete input: the message rendered for
the `boom` decode failure falls under the image-load prefix disjunct. -/
theorem c4_witness :
    "Ошибка при загрузке изображения: boom" ∈ genericMessages ∨
    (∃ e, "Ошибка при загрузке изображения: boom" =
      "Ошибка при загрузке изображения: " ++ e) ∨
    (∃ e, "Ошибка при загрузке изображения: boom" =
      "Ошибка при поиске профилей: " ++ e) :=
  c4_error_messages wBoom reqPost "Ошибка при загрузке изображения: boom"
    (some "f") rfl

/-- In a list split as `a ++ d` with no `Q`-event in `a` and no `P`-event
in `d`, every `P`-event position is before every `Q`-event position. -/
theorem before_of_split (t : List Ev) (P Q : Ev → Bool)
    (hsplit : ∃ a d, t = a ++ d ∧ (∀ e ∈ a, Q e = false) ∧ (∀ e ∈ d, P e = false))
    (i j : Nat) (hi : i < t.length) (hj : j < t.length)
    (hP : P (t.get ⟨i, hi⟩) = true) (hQ : Q (t.get ⟨j, hj⟩) = true) : i < j := by
  rcases hsplit with ⟨a, d, rfl, ha, hd⟩
  simp only [List.get_eq_getElem] at hP hQ
  have hia : i < a.length := by
    by_contra hge
    push_neg at hge
    rw [List.getElem_append_right hge] at hP
    have hb : i - a.length < d.length := by
      rw [List.length_append] at hi
      omega
    have hm : d[i - a.length] ∈ d := List.get_mem d _ hb
    rw [hd _ hm] at hP
    exact Bool.false_ne_true hP
  have hja : a.length ≤ j := by
    by_contra hlt
    push_neg at hlt
    rw [List.getElem_append_left hlt] at hQ
    have hm : a[j] ∈ a := List.get_mem a _ hlt
    rw [ha _ hm] at hQ
    exact Bool.false_ne_true hQ
  omega

theorem search_trace_events (w : World) (cn nm : Option String) :
    ∀ e ∈ (search_users_by_params w cn nm).1, isSearchStageEv e = true := by
  intro e he
  simp only [search_users_by_params] at he
  rcases List.mem_append.mp he with hc | hu
  · cases cn with
    | none => simp [resolvedCityId] at hc
    | some c =>
      by_cases h0 : c = ""
      · simp [resolvedCityId, h0] at hc
      · simp only [resolvedCityId, h0, if_false, get_city_id] at hc
        rcases List.mem_singleton.mp hc with rfl
        rfl
  · rcases List.mem_singleton.mp hu with rfl
    rfl

theorem itemsLoop_trace_events (w : World) (fe : Vec) (un : String) (uid : Int)
    (items : List PhotoItem) :
    ∀ e ∈ (itemsLoop w fe un uid items).1, isPhotoStageEv e = true := by
  induction items with
  | nil => simp [itemsLoop]
  | cons it rest ih =>
    intro e he
    simp only [itemsLoop] at he
    cases hlast : it.sizes.getLast? with
    | none => simp [hlast] at he
    | some url =>
      rw [hlast] at he
      simp only [processPhoto, List.cons_append, List.nil_append,
        List.mem_cons] at he
      rcases he with rfl | he
      · rfl
      · exact ih e he

theorem task_trace_events (w : World) (uid : Int) (fe : Vec) (un dp : String) :
    ∀ e ∈ (get_photos_from_albums w uid fe un dp).1, isPhotoStageEv e = true := by
  intro e he
  cases hr : w.photosGetAll uid with
  | error e2 =>
    simp only [get_photos_from_albums, hr, List.mem_singleton] at he
    subst he
    rfl
  | ok r =>
    cases r with
    | response items =>
      simp only [get_photos_from_albums, hr, List.mem_cons] at he
      rcases he with rfl | he
      · rfl
      · exact itemsLoop_trace_events w fe un uid items e he
    | apiError code =>
      simp only [get_photos_from_albums, hr, List.mem_singleton] at he
      subst he
      rfl
    | malformed =>
      simp only [get_photos_from_albums, hr, List.mem_singleton] at he
      subst he
      rfl

/-- The trace of `index` always decomposes into an upload segment, a
user-search segment and a photo fetch-and-compare segment, in that order. -/
theorem index_trace_shape (w : World) (req : RequestData) :
    ∃ a b c, (index w req).1 = a ++ b ++ c ∧
      (∀ e ∈ a, isUploadStageEv e = true) ∧
      (∀ e ∈ b, isSearchStageEv e = true) ∧
      (∀ e ∈ c, isPhotoStageEv e = true) := by
  obtain ⟨m, hasF, fname, fb, ct, nm⟩ := req
  cases m with
  | get => exact ⟨[], [], [], by simp [index], by simp, by simp, by simp⟩
  | post =>
    cases hasF with
    | false => exact ⟨[], [], [], by simp [index], by simp, by simp, by simp⟩
    | true =>
      by_cases hfn : fname = ""
      · exact ⟨[], [], [], by simp [index, hfn], by simp, by simp, by simp⟩
      · cases hs : w.save (filepathOf w ⟨.post, true, fname, fb, ct, nm⟩) with
        | error e =>
          refine ⟨[Ev.saveFile (filepathOf w ⟨.post, true, fname, fb, ct, nm⟩)],
            [], [], by simp [index, hfn, saveStage, hs], ?_, by simp, by simp⟩
          intro e he
          rcases List.mem_singleton.mp he with rfl
          rfl
        | ok u =>
          cases hup : uploadFacePipeline w fb with
          | error e =>
            refine ⟨[Ev.saveFile (filepathOf w ⟨.post, true, fname, fb, ct, nm⟩)],
              [], [], by simp [index, hfn, saveStage, hs, detectStage, hup],
              ?_, by simp, by simp⟩
            intro e he
            rcases List.mem_singleton.mp he with rfl
            rfl
          | ok o =>
            cases o with
            | none =>
              refine ⟨[Ev.saveFile (filepathOf w ⟨.post, true, fname, fb, ct, nm⟩),
                Ev.detectUpload], [], [],
                by simp [index, hfn, saveStage, hs, detectStage, hup],
                ?_, by simp, by simp⟩
              intro e he
              rcases List.mem_cons.mp he with rfl | he
              · rfl
              · rcases List.mem_singleton.mp he with rfl
                rfl
            | some fes =>
              cases hns : w.newSession with
              | error e =>
                refine ⟨[Ev.saveFile (filepathOf w ⟨.post, true, fname, fb, ct, nm⟩),
                  Ev.detectUpload], [], [],
                  by simp [index, hfn, saveStage, hs, detectStage, hup,
                    searchStage, hns],
                  ?_, by simp, by simp⟩
                intro e he
                rcases List.mem_cons.mp he with rfl | he
                · rfl
                · rcases List.mem_singleton.mp he with rfl
                  rfl
              | ok u2 =>
                by_cases hsr : (search_users_by_params w ct nm).2 = []
                · refine ⟨[Ev.saveFile (filepathOf w ⟨.post, true, fname, fb, ct, nm⟩),
                    Ev.detectUpload], (search_users_by_params w ct nm).1, [],
                    by simp [index, hfn, saveStage, hs, detectStage, hup,
                      searchStage, hns, hsr],
                    ?_, search_trace_events w ct nm, by simp⟩
                  intro e he
                  rcases List.mem_cons.mp he with rfl | he
                  · rfl
                  · rcases List.mem_singleton.mp he with rfl
                    rfl
                · refine ⟨[Ev.saveFile (filepathOf w ⟨.post, true, fname, fb, ct, nm⟩),
                    Ev.detectUpload], (search_users_by_params w ct nm).1,
                    (((spawnedTasks (search_users_by_params w ct nm).2 fes).map
                      (fun t => get_photos_from_albums w t.1.user_id t.2
                        t.1.name t.1.photo)).map Prod.fst).flatten,
                    ?_, ?_, search_trace_events w ct nm, ?_⟩
                  · simp only [index, if_true, hfn, if_false, saveStage, hs,
                      detectStage, hup, searchStage, hns, if_neg hsr]
                    split <;> simp [List.map_map]
                  · intro e he
                    rcases List.mem_cons.mp he with rfl | he
                    · rfl
                    · rcases List.mem_singleton.mp he with rfl
                      rfl
                  · intro e he
                    rcases List.mem_flatten.mp he with ⟨l, hl, hel⟩
                    rcases List.mem_map.mp hl with ⟨run, hrun, rfl⟩
                    rcases List.mem_map.mp hrun with ⟨t, ht, rfl⟩
                    exact task_trace_events w t.1.user_id t.2 t.1.name t.1.photo e hel

theorem not_api_of_upload (e : Ev) (h : isUploadStageEv e = true) : isApiEv e = false := by
  cases e <;> simp_all [isUploadStageEv, isApiEv, isSearchStageEv, isPhotoStageEv]

theorem not_upload_of_search (e : Ev) (h : isSearchStageEv e = true) :
    isUploadStageEv e = false := by
  cases e <;> simp_all [isUploadStageEv, isSearchStageEv]

theorem not_upload_of_photo (e : Ev) (h : isPhotoStageEv e = true) :
    isUploadStageEv e = false := by
  cases e <;> simp_all [isUploadStageEv, isPhotoStageEv]

theorem not_photo_of_upload (e : Ev) (h : isUploadStageEv e = true) :
    isPhotoStageEv e = false := by
  cases e <;> simp_all [isUploadStageEv, isPhotoStageEv]

theorem not_photo_of_search (e : Ev) (h : isSearchStageEv e = true) :
    isPhotoStageEv e = false := by
  cases e <;> simp_all [isSearchStageEv, isPhotoStageEv]

theorem not_usersSearch_of_photo (e : Ev) (h : isPhotoStageEv e = true) :
    isUsersSearchEv e = false := by
  cases e <;> simp_all [isUsersSearchEv, isPhotoStageEv]

/-- C5: every POST request runs the sequential pipeline upload → detect →
search → fetch → compare → render: in the emitted trace, saving and
detecting on the uploaded file precede every remote call, and the
`users.search` call precedes every photo fetch; and a failed or empty
earlier stage — missing file, empty filename, failed save, no faces found,
no users found — renders an error page with no later-stage event emitted. -/
theorem c5_sequential_pipeline :
    (∀ (w : World) (req : RequestData) (i j : Nat)
      (hi : i < (index w req).1.length) (hj : j < (index w req).1.length),
      (isUploadStageEv ((index w req).1.get ⟨i, hi⟩) = true →
        isApiEv ((index w req).1.get ⟨j, hj⟩) = true → i < j) ∧
      (isUsersSearchEv ((index w req).1.get ⟨i, hi⟩) = true →
        isPhotoStageEv ((index w req).1.get ⟨j, hj⟩) = true → i < j)) ∧
    (∀ (w : World) (req : RequestData), req.method = .post → req.hasFile = false →
      index w req = ([], .errorPage "Нет файла в запросе" none)) ∧
    (∀ (w : World) (req : RequestData), req.method = .post → req.hasFile = true →
      req.filename = "" → index w req = ([], .errorPage "Файл не выбран" none)) ∧
    (∀ (w : World) (req : RequestData) (e : String), req.method = .post →
      req.hasFile = true → req.filename ≠ "" →
      w.save (filepathOf w req) = .error e →
      index w req = ([Ev.saveFile (filepathOf w req)],
        .errorPage "Ошибка при сохранении файла" none)) ∧
    (∀ (w : World) (req : RequestData), req.method = .post → req.hasFile = true →
      req.filename ≠ "" → w.save (filepathOf w req) = .ok () →
      uploadFacePipeline w req.fileBytes = .ok none →
      index w req = ([Ev.saveFile (filepathOf w req), Ev.detectUpload],
        .errorPage "Лица не найдены" (some (w.secureFilename req.filename)))) ∧
    (∀ (w : World) (req : RequestData) (fes : List Vec), req.method = .post →
      req.hasFile = true → req.filename ≠ "" → w.save (filepathOf w req) = .ok () →
      uploadFacePipeline w req.fileBytes = .ok (some fes) → w.newSession = .ok () →
      (search_users_by_params w req.city req.name).2 = [] →
      (index w req).2 = .errorPage "Не найдено пользователей для данных параметров"
        (some (w.secureFilename req.filename)) ∧
      ∀ e ∈ (index w req).1, isPhotoStageEv e = false) := by
  refine ⟨?_, ?_, ?_, ?_, ?_, ?_⟩
  · intro w req i j hi hj
    obtain ⟨a, b, c, ht, ha, hb, hc⟩ := index_trace_shape w req
    constructor
    · intro hP hQ
      refine before_of_split _ isUploadStageEv isApiEv
        ⟨a, b ++ c, ht.trans (List.append_assoc a b c), ?_, ?_⟩ i j hi hj hP hQ
      · intro e he
        exact not_api_of_upload e (ha e he)
      · intro e he
        rcases List.mem_append.mp he with h1 | h2
        · exact not_upload_of_search e (hb e h1)
        · exact not_upload_of_photo e (hc e h2)
    · intro hP hQ
      refine before_of_split _ isUsersSearchEv isPhotoStageEv
        ⟨a ++ b, c, ht, ?_, ?_⟩ i j hi hj hP hQ
      · intro e he
        rcases List.mem_append.mp he with h1 | h2
        · exact not_photo_of_upload e (ha e h1)
        · exact not_photo_of_search e (hb e h2)
      · intro e he
        exact not_usersSearch_of_photo e (hc e he)
  · intro w req hm hhf
    obtain ⟨m, hasF, fname, fb, ct, nm⟩ := req
    cases m with
    | get => simp at hm
    | post =>
      cases hasF with
      | false => simp [index]
      | true => simp at hhf
  · intro w req hm hhf hfn
    obtain ⟨m, hasF, fname, fb, ct, nm⟩ := req
    cases m with
    | get => simp at hm
    | post =>
      cases hasF with
      | false => simp at hhf
      | true =>
        simp only at hfn
        simp [index, hfn]
  · intro w req e hm hhf hfn hs
    obtain ⟨m, hasF, fname, fb, ct, nm⟩ := req
    cases m with
    | get => simp at hm
    | post =>
      cases hasF with
      | false => simp at hhf
      | true =>
        simp only at hfn hs
        simp [index, hfn, saveStage, hs]
  · intro w req hm hhf hfn hs hup
    obtain ⟨m, hasF, fname, fb, ct, nm⟩ := req
    cases m with
    | get => simp at hm
    | post =>
      cases hasF with
      | false => simp at hhf
      | true =>
        simp only at hfn hs hup
        simp [index, hfn, saveStage, hs, detectStage, hup]
  · intro w req fes hm hhf hfn hs hup hns hsr
    obtain ⟨m, hasF, fname, fb, ct, nm⟩ := req
    cases m with
    | get => simp at hm
    | post =>
      cases hasF with
      | false => simp at hhf
      | true =>
        simp only at hfn hs hup hns hsr
        have hidx : index w ⟨.post, true, fname, fb, ct, nm⟩ =
            (Ev.saveFile (filepathOf w ⟨.post, true, fname, fb, ct, nm⟩) ::
              Ev.detectUpload :: (search_users_by_params w ct nm).1,
             .errorPage "Не найдено пользователей для данных параметров"
               (some (w.secureFilename fname))) := by
          simp [index, hfn, saveStage, hs, detectStage, hup, searchStage, hns, hsr]
        rw [hidx]
        refine ⟨rfl, ?_⟩
        intro e he
        rcases List.mem_cons.mp he with rfl | he
        · rfl
        · rcases List.mem_cons.mp he with rfl | he
          · rfl
          · exact not_photo_of_search e (search_trace_events w ct nm e he)

/-- Witness for C5 at concrete inputs: in `wOk` the upload event at
position 0 precedes the API call at position 2, and a POST without a file
part renders the error page with an empty trace. -/
theorem c5_witness :
    (0 : Nat) < 2 ∧
    index wOk (⟨.post, false, "x", [], none, none⟩ : RequestData) =
      ([], .errorPage "Нет файла в запросе" none) := by
  constructor
  · exact (c5_sequential_pipeline.1 wOk reqPost 0 2 (by decide) (by decide)).1
      (by decide) (by decide)
  · exact c5_sequential_pipeline.2.1 wOk _ rfl rfl

end App
